import Mathlib

/-!
Verification of the topic rendering and refresh engine of the squonk2-admin
repository: the renderer registry, the shared topic state with its guarded
transition (`TopicWidget.set_topic`), the render lookup, and the key-binding
surface of the `Squad` application. Definitions are shallow embeddings of
the Python source in `src/squad/widgets/topic.py` and `src/squad/squad.py`.
-/

/-- The renderer classes registered in the topic-renderer table of
`TopicWidget` (file `src/squad/widgets/topic.py`): one constructor per
imported renderer class. The bodies of these classes live outside the given
sources, so a renderer is represented by its identity alone. -/
inductive TopicRenderer where
  | Assets
  | Datasets
  | DefinedExchangeRates
  | Instances
  | Merchants
  | Products
  | Projects
  | PersonalUnits
  | ServiceErrors
  | UndefinedExchangeRates
  | Units
  deriving DecidableEq

/-- Modelled from the spec: a RenderedOutput is an opaque displayable
artifact (a rich `Panel` in the source). The renderer classes producing it
are outside the given sources, so the artifact records only which renderer
produced it. -/
structure Panel where
  producedBy : TopicRenderer
  deriving DecidableEq

/-- Modelled from the spec: each renderer exposes a single operation
`render` producing a RenderedOutput; the bodies of the renderer classes are
outside the given sources, so the output is the opaque artifact tagged with
the renderer. -/
def TopicRenderer.render (r : TopicRenderer) : Panel :=
  ⟨r⟩

namespace TopicWidget

/-- The class-level renderer table of `TopicWidget` (`topic_renderers`,
`src/squad/widgets/topic.py` lines 28-40), as an association list in source
order. -/
def topic_renderers : List (String × TopicRenderer) :=
  [("assets", .Assets),
   ("datasets", .Datasets),
   ("defined-exchange-rates", .DefinedExchangeRates),
   ("instances", .Instances),
   ("merchants", .Merchants),
   ("products", .Products),
   ("projects", .Projects),
   ("personal-units", .PersonalUnits),
   ("service-errors", .ServiceErrors),
   ("undefined-exchange-rates", .UndefinedExchangeRates),
   ("units", .Units)]

/-- The keys of the renderer table: membership in this list is the
dictionary membership test `topic in TopicWidget.topic_renderers` of the
source. -/
def supportedTopics : List String :=
  topic_renderers.map Prod.fst

/-- Dictionary lookup `TopicWidget.topic_renderers[topic]`, returning
`none` when the key is absent. -/
def lookupRenderer (topic : String) : Option TopicRenderer :=
  (topic_renderers.find? (fun p => p.fst == topic)).map Prod.snd

/-- The initial value of the class attribute `topic`
(`src/squad/widgets/topic.py` line 27). -/
def initialTopic : String := "instances"

/-- The observable effects of one `TopicWidget.set_topic` call: the value
of the `topic` attribute afterwards, the warnings emitted to the side
channel during the call, and the renderers invoked during the call. -/
structure SetTopicResult where
  topic : String
  warnings : List String
  rendered : List TopicRenderer
  deriving DecidableEq

/-- `TopicWidget.set_topic` (`src/squad/widgets/topic.py` lines 42-50):
when the candidate is not a key of the renderer table it emits one warning
and leaves the topic unchanged, otherwise it assigns the candidate; no
renderer is invoked on either path. -/
def set_topic (current topic : String) : SetTopicResult :=
  if (lookupRenderer topic).isNone then
    { topic := current
      warnings := ["Unsupported topic: " ++ topic]
      rendered := [] }
  else
    { topic := topic, warnings := [], rendered := [] }

/-- The Python return value of `TopicWidget.set_topic`: the function is
annotated `-> None` and returns `None` on both the reject path (a bare
`return`) and the accept path (implicit fall-through), modelled as
`Unit`. -/
def set_topic_return (current topic : String) : Unit := ()

/-- `TopicWidget.render` (`src/squad/widgets/topic.py` lines 57-61):
asserts that the current topic is a key of the renderer table, then renders
with the looked-up renderer; `none` models a failure of the assertion (or
of the dictionary access). -/
def render (topic : String) : Option Panel :=
  (lookupRenderer topic).map TopicRenderer.render

/-- The period, in time units, passed to `set_interval` by
`TopicWidget.on_mount` (`src/squad/widgets/topic.py` lines 52-55), as a
function of the only construction argument a `TopicWidget` accepts (the
optional widget name inherited from `Widget`); the source passes the
literal `2` unconditionally. -/
def set_interval_period (name : Option String) : Nat := 2

/-- The topic values reachable during execution: the initial
class-attribute value, closed under `set_topic` with an arbitrary
candidate string. -/
inductive ReachableTopic : String → Prop where
  | init : ReachableTopic initialTopic
  | step (s t : String) : ReachableTopic s → ReachableTopic (set_topic s t).topic

end TopicWidget

namespace Squad

/-- The topic key bindings installed by `Squad.on_load`
(`src/squad/squad.py` lines 26-41): each single-character key is bound to
`action_topic` with the given topic argument. -/
def topicKeyBindings : List (String × String) :=
  [("a", "assets"),
   ("d", "datasets"),
   ("i", "instances"),
   ("m", "merchants"),
   ("n", "personal-units"),
   ("o", "units"),
   ("p", "projects"),
   ("r", "defined-exchange-rates"),
   ("s", "service-errors"),
   ("t", "products"),
   ("u", "undefined-exchange-rates")]

/-- `Squad.action_topic` (`src/squad/squad.py` lines 94-100): passes its
topic argument straight to `TopicWidget.set_topic`. -/
def action_topic (current topic : String) : TopicWidget.SetTopicResult :=
  TopicWidget.set_topic current topic

end Squad

/-- Mapping the value component off a table lookup does not change whether
the lookup succeeded. -/
theorem lookupRenderer_isSome_eq (t : String) :
    (TopicWidget.lookupRenderer t).isSome =
      (TopicWidget.topic_renderers.find? (fun p => p.fst == t)).isSome := by
  unfold TopicWidget.lookupRenderer
  cases TopicWidget.topic_renderers.find? (fun p => p.fst == t) <;> rfl

/-- A lookup in the renderer table succeeds exactly on the table keys. -/
theorem lookupRenderer_isSome_iff (t : String) :
    (TopicWidget.lookupRenderer t).isSome = true ↔
      t ∈ TopicWidget.supportedTopics := by
  rw [lookupRenderer_isSome_eq, List.find?_isSome]
  unfold TopicWidget.supportedTopics
  constructor
  · rintro ⟨p, hp, hbeq⟩
    have hfst : p.fst = t := by simpa using hbeq
    exact hfst ▸ List.mem_map_of_mem Prod.fst hp
  · intro h
    rcases List.mem_map.mp h with ⟨p, hp, hfst⟩
    exact ⟨p, hp, by simp [hfst]⟩

/-- On a candidate that is a table key, `set_topic` assigns the candidate
and emits nothing. -/
theorem set_topic_of_isSome (s t : String)
    (h : (TopicWidget.lookupRenderer t).isSome = true) :
    TopicWidget.set_topic s t = ⟨t, [], []⟩ := by
  cases ho : TopicWidget.lookupRenderer t with
  | none => rw [ho] at h; cases h
  | some r => simp [TopicWidget.set_topic, ho]

/-- On a candidate absent from the table, `set_topic` keeps the current
topic and emits one warning. -/
theorem set_topic_of_isNone (s t : String)
    (h : (TopicWidget.lookupRenderer t).isNone = true) :
    TopicWidget.set_topic s t = ⟨s, ["Unsupported topic: " ++ t], []⟩ := by
  simp [TopicWidget.set_topic, h]

/-- Claim C1: every value ever held by the topic state — the initial value
and every value produced by a `set_topic` call — is a key of the renderer
table, so the assertion performed by `render` (that the current topic is in
the renderer table) succeeds on it. -/
theorem c1_topic_invariant (s : String) (h : TopicWidget.ReachableTopic s) :
    s ∈ TopicWidget.supportedTopics ∧ (TopicWidget.render s).isSome = true := by
  induction h with
  | init => exact ⟨by decide, by decide⟩
  | step s t hs ih =>
    by_cases hmem : (TopicWidget.lookupRenderer t).isSome = true
    · rw [set_topic_of_isSome s t hmem]
      refine ⟨(lookupRenderer_isSome_iff t).mp hmem, ?_⟩
      unfold TopicWidget.render
      cases ho : TopicWidget.lookupRenderer t with
      | none => rw [ho] at hmem; cases hmem
      | some r => rfl
    · have hnone : (TopicWidget.lookupRenderer t).isNone = true := by
        cases ho : TopicWidget.lookupRenderer t with
        | none => rfl
        | some r => rw [ho] at hmem; simp at hmem
      rw [set_topic_of_isNone s t hnone]
      exact ih

/-- Claim C1 witness: the invariant instantiated at the initial topic. -/
theorem c1_witness :
    "instances" ∈ TopicWidget.supportedTopics ∧
      (TopicWidget.render "instances").isSome = true :=
  c1_topic_invariant "instances" TopicWidget.ReachableTopic.init

/-- Claim C2: for every key of the renderer table, setting the topic to it
makes the topic read as that key, whatever topic was held beforehand. -/
theorem c2_set_topic_roundtrip (current t : String)
    (h : t ∈ TopicWidget.supportedTopics) :
    (TopicWidget.set_topic current t).topic = t := by
  rw [set_topic_of_isSome current t ((lookupRenderer_isSome_iff t).mpr h)]

/-- Claim C2 witness: the round trip instantiated at a concrete key. -/
theorem c2_witness :
    "assets" ∈ TopicWidget.supportedTopics ∧
      (TopicWidget.set_topic "instances" "assets").topic = "assets" :=
  ⟨by decide, c2_set_topic_roundtrip "instances" "assets" (by decide)⟩

/-- Claim C3: for every candidate not a key of the renderer table,
`set_topic` leaves the topic unchanged, emits exactly one warning, and
invokes no renderer. -/
theorem c3_unsupported_rejected (current t : String)
    (h : t ∉ TopicWidget.supportedTopics) :
    (TopicWidget.set_topic current t).topic = current ∧
      (TopicWidget.set_topic current t).warnings.length = 1 ∧
      (TopicWidget.set_topic current t).rendered = [] := by
  have hnone : (TopicWidget.lookupRenderer t).isNone = true := by
    cases ho : TopicWidget.lookupRenderer t with
    | none => rfl
    | some r =>
      exact absurd ((lookupRenderer_isSome_iff t).mp (by rw [ho]; rfl)) h
  rw [set_topic_of_isNone current t hnone]
  exact ⟨rfl, rfl, rfl⟩

/-- Claim C3 witness: the rejection behaviour instantiated at a concrete
unsupported candidate. -/
theorem c3_witness :
    (TopicWidget.set_topic "instances" "bogus").topic = "instances" ∧
      (TopicWidget.set_topic "instances" "bogus").warnings.length = 1 ∧
      (TopicWidget.set_topic "instances" "bogus").rendered = [] :=
  c3_unsupported_rejected "instances" "bogus" (by decide)

/-- Claim C4 counterexample: `set_topic` returns the same value (Python
`None`, modelled as `Unit`) on an accepted candidate and on a rejected one,
so its return value does not distinguish an accepted transition from a
rejected one. -/
theorem c4_counterexample :
    (TopicWidget.lookupRenderer "assets").isSome = true ∧
      (TopicWidget.lookupRenderer "bogus").isSome = false ∧
      TopicWidget.set_topic_return "instances" "assets" =
        TopicWidget.set_topic_return "instances" "bogus" :=
  ⟨by decide, by decide, rfl⟩

/-- Claim C4 amended: `set_topic` returns no result value (Python `None`
on both paths); acceptance versus rejection is observable only through the
state change and the warning side channel — no warning and the state
becomes the candidate exactly when the candidate is a table key, otherwise
the state is unchanged and a warning is emitted. -/
theorem c4_outcome_channels (current topic : String) :
    TopicWidget.set_topic_return current topic = () ∧
      ((TopicWidget.set_topic current topic).warnings = [] ↔
        topic ∈ TopicWidget.supportedTopics) ∧
      (TopicWidget.set_topic current topic).topic =
        (if topic ∈ TopicWidget.supportedTopics then topic else current) := by
  refine ⟨rfl, ?_, ?_⟩ <;> by_cases h : topic ∈ TopicWidget.supportedTopics
  · rw [set_topic_of_isSome current topic ((lookupRenderer_isSome_iff topic).mpr h)]
    simp [h]
  · have hnone : (TopicWidget.lookupRenderer topic).isNone = true := by
      cases ho : TopicWidget.lookupRenderer topic with
      | none => rfl
      | some r =>
        exact absurd ((lookupRenderer_isSome_iff topic).mp (by rw [ho]; rfl)) h
    rw [set_topic_of_isNone current topic hnone]
    simp [h]
  · rw [set_topic_of_isSome current topic ((lookupRenderer_isSome_iff topic).mpr h)]
    simp [h]
  · have hnone : (TopicWidget.lookupRenderer topic).isNone = true := by
      cases ho : TopicWidget.lookupRenderer topic with
      | none => rfl
      | some r =>
        exact absurd ((lookupRenderer_isSome_iff topic).mp (by rw [ho]; rfl)) h
    rw [set_topic_of_isNone current topic hnone]
    simp [h]

/-- Claim C6: the renderer table is the fixed eleven-key table of the
source — its key list is exactly the eleven topic identifiers, the keys are
distinct, each key carries its own renderer, and the table holds eleven
entries. In this embedding the table is a constant: no operation takes or
produces a modified table. -/
theorem c6_registry_fixed :
    TopicWidget.supportedTopics =
        ["assets", "datasets", "defined-exchange-rates", "instances",
         "merchants", "products", "projects", "personal-units",
         "service-errors", "undefined-exchange-rates", "units"] ∧
      TopicWidget.supportedTopics.Nodup ∧
      (TopicWidget.topic_renderers.map Prod.snd).Nodup ∧
      TopicWidget.topic_renderers.length = 11 := by
  refine ⟨rfl, by decide, by decide, rfl⟩

/-- Claim C7: the topic state is initialised to `"instances"`, which the
renderer table maps to the Instances renderer. -/
theorem c7_initial_topic :
    TopicWidget.initialTopic = "instances" ∧
      TopicWidget.lookupRenderer TopicWidget.initialTopic =
        some TopicRenderer.Instances :=
  ⟨rfl, rfl⟩

/-- Claim C8 counterexample: the refresh period handed to `set_interval`
is the literal `2` for every construction of the widget — distinct
constructions cannot yield distinct cadences, so the cadence is not
configurable at construction time. -/
theorem c8_counterexample :
    TopicWidget.set_interval_period none = 2 ∧
      TopicWidget.set_interval_period (some "fast") = 2 ∧
      TopicWidget.set_interval_period (some "slow") = 2 ∧
      ¬ ∃ a b : Option String,
          TopicWidget.set_interval_period a ≠ TopicWidget.set_interval_period b :=
  ⟨rfl, rfl, rfl, fun ⟨_, _, h⟩ => h rfl⟩

/-- Claim C8 amended: the refresh scheduler operates on the fixed period
`2`, hard-coded in `on_mount` and independent of any construction
argument. -/
theorem c8_fixed_period (n : Option String) :
    TopicWidget.set_interval_period n = 2 := rfl

/-- Claim C10: every topic named in the key-binding table of `on_load` is
a key of the renderer table, so a `set_topic` reached through a bound key
emits no warning and always assigns the requested topic. -/
theorem c10_bound_topics (k t current : String)
    (h : (k, t) ∈ Squad.topicKeyBindings) :
    t ∈ TopicWidget.supportedTopics ∧
      (Squad.action_topic current t).warnings = [] ∧
      (Squad.action_topic current t).topic = t := by
  have ht : t ∈ TopicWidget.supportedTopics := by
    have hmem := List.mem_map_of_mem Prod.snd h
    have hsub : ∀ x ∈ Squad.topicKeyBindings.map Prod.snd,
        x ∈ TopicWidget.supportedTopics := by decide
    exact hsub t hmem
  have hsome := (lookupRenderer_isSome_iff t).mpr ht
  have : Squad.action_topic current t = TopicWidget.set_topic current t := rfl
  rw [this, set_topic_of_isSome current t hsome]
  exact ⟨ht, rfl, rfl⟩

/-- Claim C10 witness: the bound-key guarantee instantiated at the binding
of key a to the assets topic. -/
theorem c10_witness :
    "assets" ∈ TopicWidget.supportedTopics ∧
      (Squad.action_topic "instances" "assets").warnings = [] ∧
      (Squad.action_topic "instances" "assets").topic = "assets" :=
  c10_bound_topics "a" "assets" "instances" (by decide)
